import Mathlib

/-!
Verification development for the funfuzz triage harness.

Embedded source files:
* `jsfunfuzz/jsunhappy.py` — the outcome classifier (`level`), the
  interestingness predicate (`interesting`) and the init plumbing.
* `js/inspectShell.py` — build-verification probes (`shellSupports`,
  `testBinary`, `constructVgCmdList`, `archOfBinary`).

External collaborators that are not part of the embedded sources
(the process runner `ntr.timed_run`, the three detectors
`detect_assertions` / `detect_interesting_crashes` /
`detect_malloc_errors`, and the subprocess helper `captureStdout`)
are modelled as explicit oracle parameters: the embedded functions are
quantified over every possible behaviour of those collaborators.
-/

/-- Exit status of one run, as produced by the external runner.
Modelled from the spec: status is one of NORMAL, CRASHED, TIMED_OUT,
ABNORMAL (the runner `ntr` is outside the embedded sources; the
classifier only compares the status against the three non-normal
constants). -/
inductive Status where
  | NORMAL
  | CRASHED
  | TIMED_OUT
  | ABNORMAL
deriving DecidableEq, Repr

/-- Outcome of one external run, bundling what `jsunhappy.level` reads:
the exit status from `ntr.timed_run`, the failure message, the lines of
the `logPrefix + "-out"` log file (each line carries its trailing
newline, as Python file iteration yields it), and the boolean verdicts
of the three detectors on the artifacts of this run. -/
structure RunInfo where
  sta : Status
  msg : String
  log : List String
  assertAmiss : Bool
  crashAmiss : Bool
  mallocAmiss : Bool

-- Severity levels, `range(7)` in jsunhappy.py, ordered from
-- "most expected to least expected".

def JS_FINE : Nat := 0

def JS_TIMED_OUT : Nat := 1

def JS_ABNORMAL_EXIT : Nat := 2

def JS_DID_NOT_FINISH : Nat := 3

def JS_DECIDED_TO_EXIT : Nat := 4

def JS_MALLOC_ERROR : Nat := 5

def JS_NEW_ASSERT_OR_CRASH : Nat := 6

/-- The success marker line (with its newline, as read from the log). -/
def goodMarker : String := "It\x27s looking good!\n"

/-- The self-terminated marker line. -/
def exitMarker : String := "jsfunfuzz stopping due to above error!\n"

/-- The default issue recorded before the log scan. -/
def didNotFinishIssue : String := "jsfunfuzz didn\x27t finish"

/-- One iteration of the `for line in logfile` loop in `jsunhappy.level`:
a success marker resets the accumulator to `(JS_FINE, [])`, a
self-terminated marker overwrites it with `JS_DECIDED_TO_EXIT`, any
other line leaves it unchanged. -/
def scanStep (acc : Nat × List String) (line : String) : Nat × List String :=
  if line == goodMarker then (JS_FINE, [])
  else if line == exitMarker then
    (JS_DECIDED_TO_EXIT, ["jsfunfuzz decided to exit"])
  else acc

/-- The whole log scan of `jsunhappy.level`: fold `scanStep` over the
log lines starting from `(JS_DID_NOT_FINISH, [didNotFinishIssue])`. -/
def baseScan (log : List String) : Nat × List String :=
  log.foldl scanStep (JS_DID_NOT_FINISH, [didNotFinishIssue])

/-- One of the `if ...: issues.append(...); lev = max(lev, ...)` blocks
of `jsunhappy.level`. -/
def escalate (fire : Bool) (floor : Nat) (issue : String)
    (p : Nat × List String) : Nat × List String :=
  if fire then (max p.1 floor, p.2 ++ [issue]) else p

/-- The body of `jsunhappy.level` after the run: base classification
from the log, then the five escalation blocks in source order
(assertion, crash, malloc, abnormal, timed out). Returns the pair
`(lev, issues)` as they stand at the final `print`; the Python function
returns `lev` and prints `issues`. -/
def classify (sta : Status) (log : List String)
    (assertAmiss crashAmiss mallocAmiss : Bool) : Nat × List String :=
  escalate (sta == Status.TIMED_OUT) JS_TIMED_OUT "timed out"
    (escalate (sta == Status.ABNORMAL) JS_ABNORMAL_EXIT "abnormal exit"
      (escalate mallocAmiss JS_MALLOC_ERROR "malloc error"
        (escalate ((sta == Status.CRASHED) && crashAmiss)
            JS_NEW_ASSERT_OR_CRASH "unknown crash"
          (escalate assertAmiss JS_NEW_ASSERT_OR_CRASH "unknown assertion"
            (baseScan log)))))

/-- `jsunhappy.level(runthis, timeout, logPrefix)`: run the command via
the external runner (the oracle `run` stands for `ntr.timed_run`
together with the log file and detector reads), then classify; the
Python function returns `lev`. -/
def level (run : List String → Int → RunInfo)
    (runthis : List String) (timeout : Int) : Nat :=
  let runinfo := run runthis timeout
  (classify runinfo.sta runinfo.log runinfo.assertAmiss
    runinfo.crashAmiss runinfo.mallocAmiss).1

/-- `jsunhappy.interesting(args, tempPrefix)`:
`int(args[0])` is the minimum interesting level, `int(args[1])` the
timeout, `args[3:]` the command; returns
`level(args[3:], timeout, tempPrefix) >= minimumInterestingLevel`. -/
def interesting (run : List String → Int → RunInfo)
    (args : List String) : Bool :=
  let minimumInterestingLevel : Int := (args.getD 0 "").toInt!
  let timeout : Int := (args.getD 1 "").toInt!
  let actualLevel := level run (args.drop 3) timeout
  decide (minimumInterestingLevel ≤ (actualLevel : Int))

-- ------------------------------------------------------------------
-- js/inspectShell.py
-- ------------------------------------------------------------------

/-- Character-list prefix test, used to model the Python substring
operator `needle in hay`. -/
def pyStarts : List Char → List Char → Bool
  | [], _ => true
  | _ :: _, [] => false
  | x :: xs, y :: ys => x == y && pyStarts xs ys

/-- Substring search on character lists. -/
def pyInChars (n : List Char) : List Char → Bool
  | [] => pyStarts n []
  | y :: ys => pyStarts n (y :: ys) || pyInChars n ys

/-- The Python expression `needle in hay` on strings. -/
def pyIn (needle hay : String) : Bool :=
  pyInChars needle.toList hay.toList

/-- The characters after the first occurrence of `c`, or `none` when
`c` does not occur. -/
def afterChar (c : Char) : List Char → Option (List Char)
  | [] => none
  | x :: xs => if x == c then some xs else afterChar c xs

/-- The Python expression `s.split(":", 1)[1]`: everything after the
first colon; `none` models the IndexError raised when there is no
colon. -/
def splitColonTail (s : String) : Option String :=
  (afterChar ':' s.toList).map String.mk

/-- `inspectShell.archOfBinary(binary)`. The oracle `capture` stands
for `captureStdout`, returning the first line of the output of
`file binary`; `isWin` is the platform flag imported from
`subprocesses`. A Python `assert` failure, the explicit `raise` for
universal binaries, and the IndexError on a colon-free `file` output
are all modelled as `Except.error`; the implicit `return None` at the
end of the non-Windows branch is `Except.ok none`. -/
def archOfBinary (capture : List String → String) (isWin : Bool)
    (binary : String) : Except String (Option String) :=
  let unsplitFiletype := capture ["file", binary]
  match splitColonTail unsplitFiletype with
  | none => Except.error "IndexError"
  | some filetype =>
    if isWin then
      if pyIn "PE executable for MS Windows (console)" filetype then
        Except.ok (some (if pyIn "Intel 80386 32-bit" filetype then "32" else "64"))
      else Except.error "AssertionError"
    else
      if pyIn "universal binary" filetype then
        Except.error "I don\x27t know how to deal with multiple-architecture binaries"
      else if pyIn "32-bit" filetype || pyIn "i386" filetype then
        if pyIn "64-bit" filetype then Except.error "AssertionError"
        else Except.ok (some "32")
      else if pyIn "64-bit" filetype then
        if pyIn "32-bit" filetype then Except.error "AssertionError"
        else Except.ok (some "64")
      else Except.ok none

/-- `inspectShell.constructVgCmdList(errorCode)`: the default valgrind
command prefix. `isMac` and `isARMv7l` are the platform flags imported
from `subprocesses`. -/
def constructVgCmdList (isMac isARMv7l : Bool) (errorCode : Int) : List String :=
  ["valgrind"]
    ++ (if isMac then ["--dsymutil=yes"] else [])
    ++ ["--error-exitcode=" ++ toString errorCode]
    ++ (if !isARMv7l then ["--smc-check=all-non-file"] else [])
    ++ ["--vex-iropt-register-updates=allregs-at-mem-access",
        "--gen-suppressions=all",
        "--leak-check=full",
        "--errors-for-leak-kinds=definite",
        "--show-leak-kinds=definite",
        "--show-possibly-lost=no",
        "--num-callers=50"]

/-- `inspectShell.testBinary(shellPath, args, useValgrind)`. The oracle
`capture` stands for `captureStdout` on the assembled command (the
environment plumbing is part of the oracle); returns the pair
`(out, rCode)`. -/
def testBinary (capture : List String → String × Int)
    (isMac isARMv7l : Bool) (shellPath : String) (args : List String)
    (useValgrind : Bool) : String × Int :=
  let testCmd :=
    (if useValgrind then constructVgCmdList isMac isARMv7l 77 else [])
      ++ [shellPath] ++ args
  capture testCmd

/-- `inspectShell.shellSupports(shellPath, args)`: exit code 0 is
support, exit codes 1 through 3 are non-support, anything else raises
(`Except.error`). -/
def shellSupports (capture : List String → String × Int)
    (isMac isARMv7l : Bool) (shellPath : String) (args : List String) :
    Except String Bool :=
  let retCode := (testBinary capture isMac isARMv7l shellPath args false).2
  if retCode == 0 then Except.ok true
  else if 1 ≤ retCode ∧ retCode ≤ 3 then Except.ok false
  else Except.error ("Unexpected exit code in shellSupports " ++ toString retCode)

-- ------------------------------------------------------------------
-- Helper lemmas about the log scan
-- ------------------------------------------------------------------

theorem scanStep_good (acc : Nat × List String) :
    scanStep acc goodMarker = (JS_FINE, []) := by
  simp [scanStep]

theorem scanStep_exit (acc : Nat × List String) :
    scanStep acc exitMarker = (JS_DECIDED_TO_EXIT, ["jsfunfuzz decided to exit"]) := by
  simp [scanStep]
  decide

theorem scanStep_other (acc : Nat × List String) (line : String)
    (hg : line ≠ goodMarker) (he : line ≠ exitMarker) :
    scanStep acc line = acc := by
  simp [scanStep, hg, he]

theorem foldl_scanStep_nomarker (l : List String) (acc : Nat × List String)
    (h : ∀ x ∈ l, x ≠ goodMarker ∧ x ≠ exitMarker) :
    l.foldl scanStep acc = acc := by
  induction l generalizing acc with
  | nil => rfl
  | cons x xs ih =>
    have hx := h x (by simp)
    rw [List.foldl_cons, scanStep_other acc x hx.1 hx.2]
    exact ih acc fun y hy => h y (by simp [hy])

theorem foldl_scanStep_keep_fine (l : List String)
    (he : exitMarker ∉ l) :
    l.foldl scanStep (JS_FINE, ([] : List String)) = (JS_FINE, []) := by
  induction l with
  | nil => rfl
  | cons x xs ih =>
    have hxe : x ≠ exitMarker := fun h => he (by simp [h])
    rw [List.foldl_cons]
    by_cases hxg : x = goodMarker
    · rw [hxg, scanStep_good]
      exact ih (fun h => he (by simp [h]))
    · rw [scanStep_other _ x hxg hxe]
      exact ih (fun h => he (by simp [h]))

theorem foldl_scanStep_keep_exit (l : List String)
    (hg : goodMarker ∉ l) :
    l.foldl scanStep (JS_DECIDED_TO_EXIT, ["jsfunfuzz decided to exit"]) =
      (JS_DECIDED_TO_EXIT, ["jsfunfuzz decided to exit"]) := by
  induction l with
  | nil => rfl
  | cons x xs ih =>
    have hxg : x ≠ goodMarker := fun h => hg (by simp [h])
    rw [List.foldl_cons]
    by_cases hxe : x = exitMarker
    · rw [hxe, scanStep_exit]
      exact ih (fun h => hg (by simp [h]))
    · rw [scanStep_other _ x hxg hxe]
      exact ih (fun h => hg (by simp [h]))

theorem foldl_scanStep_good_only (l : List String) (acc : Nat × List String)
    (hg : goodMarker ∈ l) (he : exitMarker ∉ l) :
    l.foldl scanStep acc = (JS_FINE, []) := by
  induction l generalizing acc with
  | nil => simp at hg
  | cons x xs ih =>
    have hxe : x ≠ exitMarker := fun h => he (by simp [h])
    rw [List.foldl_cons]
    by_cases hxg : x = goodMarker
    · rw [hxg, scanStep_good]
      exact foldl_scanStep_keep_fine xs (fun h => he (by simp [h]))
    · rw [scanStep_other _ x hxg hxe]
      have hg' : goodMarker ∈ xs := by
        rcases List.mem_cons.mp hg with h | h
        · exact absurd h.symm hxg
        · exact h
      exact ih acc hg' (fun h => he (List.mem_cons_of_mem x h))

theorem foldl_scanStep_exit_only (l : List String) (acc : Nat × List String)
    (he : exitMarker ∈ l) (hg : goodMarker ∉ l) :
    l.foldl scanStep acc = (JS_DECIDED_TO_EXIT, ["jsfunfuzz decided to exit"]) := by
  induction l generalizing acc with
  | nil => simp at he
  | cons x xs ih =>
    have hxg : x ≠ goodMarker := fun h => hg (by simp [h])
    rw [List.foldl_cons]
    by_cases hxe : x = exitMarker
    · rw [hxe, scanStep_exit]
      exact foldl_scanStep_keep_exit xs (fun h => hg (by simp [h]))
    · rw [scanStep_other _ x hxg hxe]
      have he' : exitMarker ∈ xs := by
        rcases List.mem_cons.mp he with h | h
        · exact absurd h.symm hxe
        · exact h
      exact ih acc he' (fun h => hg (List.mem_cons_of_mem x h))

theorem foldl_scanStep_range (log : List String) (acc : Nat × List String)
    (hstart : acc = (JS_DID_NOT_FINISH, [didNotFinishIssue]) ∨
      acc = (JS_FINE, []) ∨
      acc = (JS_DECIDED_TO_EXIT, ["jsfunfuzz decided to exit"])) :
    log.foldl scanStep acc = (JS_DID_NOT_FINISH, [didNotFinishIssue]) ∨
    log.foldl scanStep acc = (JS_FINE, []) ∨
    log.foldl scanStep acc = (JS_DECIDED_TO_EXIT, ["jsfunfuzz decided to exit"]) := by
  induction log generalizing acc with
  | nil => simpa using hstart
  | cons x xs ih =>
    rw [List.foldl_cons]
    apply ih
    by_cases hxg : x = goodMarker
    · rw [hxg, scanStep_good]; simp
    · by_cases hxe : x = exitMarker
      · rw [hxe, scanStep_exit]; simp
      · rw [scanStep_other _ x hxg hxe]; exact hstart

theorem baseScan_cases (log : List String) :
    baseScan log = (JS_DID_NOT_FINISH, [didNotFinishIssue]) ∨
    baseScan log = (JS_FINE, []) ∨
    baseScan log = (JS_DECIDED_TO_EXIT, ["jsfunfuzz decided to exit"]) :=
  foldl_scanStep_range log _ (Or.inl rfl)

theorem classify_no_fire (log : List String) :
    classify Status.NORMAL log false false false = baseScan log := by
  simp [classify, escalate]

-- ------------------------------------------------------------------
-- Claim theorems
-- ------------------------------------------------------------------

/-- C1 counterexample: for an empty log with status TIMED_OUT and no
detector firing, the classifier does NOT return level `JS_TIMED_OUT`,
and its issue list is NOT `["did not finish", "timed out"]`: the base
level for a marker-free log is `JS_DID_NOT_FINISH`, which is above
`JS_TIMED_OUT` in the ordering, and the first issue string is
`"jsfunfuzz didn\x27t finish"`. -/
theorem scenarioD_claim_false :
    (classify Status.TIMED_OUT [] false false false).1 ≠ JS_TIMED_OUT ∧
    (classify Status.TIMED_OUT [] false false false).2 ≠
      ["did not finish", "timed out"] := by
  decide

/-- C1 (amended): for an empty log with status TIMED_OUT and no
detector firing, the classifier returns level `JS_DID_NOT_FINISH` with
issue list `[didNotFinishIssue, "timed out"]` in that order. -/
theorem scenarioD_actual :
    classify Status.TIMED_OUT [] false false false =
      (JS_DID_NOT_FINISH, [didNotFinishIssue, "timed out"]) := by
  decide

/-- C2: when both marker lines occur in the log, the base
classification is decided by whichever matching marker line occurs
later in file order: writing the log as `l1 ++ m :: l2` with `m` a
marker line and no marker line in `l2`, the scan result is the outcome
of `m`, whatever came before it. -/
theorem lastMarkerWins (l1 l2 : List String) (m : String)
    (hm : m = goodMarker ∨ m = exitMarker)
    (h2 : ∀ x ∈ l2, x ≠ goodMarker ∧ x ≠ exitMarker)
    (hg : goodMarker ∈ l1 ++ m :: l2)
    (he : exitMarker ∈ l1 ++ m :: l2) :
    baseScan (l1 ++ m :: l2) =
      if m = goodMarker then (JS_FINE, [])
      else (JS_DECIDED_TO_EXIT, ["jsfunfuzz decided to exit"]) := by
  unfold baseScan
  rw [List.foldl_append, List.foldl_cons,
    foldl_scanStep_nomarker l2 _ h2]
  rcases hm with hmg | hme
  · rw [hmg, scanStep_good, if_pos rfl]
  · rw [hme, scanStep_exit]
    decide

/-- C2 witness: a log holding the self-terminated marker followed by
the success marker classifies as the later (success) marker dictates. -/
theorem lastMarkerWins_witness :
    baseScan [exitMarker, goodMarker] = (JS_FINE, []) := by
  have h := lastMarkerWins [exitMarker] [] goodMarker (Or.inl rfl)
    (by simp) (by simp) (by simp)
  simpa using h

/-- C3: for fixed status and log, turning any single detector from
false to true never decreases the level returned by the classifier. -/
theorem detector_mono (sta : Status) (log : List String)
    (aA cA mA : Bool) :
    (classify sta log aA cA mA).1 ≤ (classify sta log true cA mA).1 ∧
    (classify sta log aA cA mA).1 ≤ (classify sta log aA true mA).1 ∧
    (classify sta log aA cA mA).1 ≤ (classify sta log aA cA true).1 := by
  cases sta <;> cases aA <;> cases cA <;> cases mA <;>
    simp [classify, escalate, JS_FINE, JS_TIMED_OUT, JS_ABNORMAL_EXIT,
      JS_DID_NOT_FINISH, JS_DECIDED_TO_EXIT, JS_MALLOC_ERROR,
      JS_NEW_ASSERT_OR_CRASH] <;> omega

/-- C4: for every status, log and detector combination, the issue list
is empty exactly when the level is `JS_FINE`. -/
theorem issues_empty_iff_fine (sta : Status) (log : List String)
    (aA cA mA : Bool) :
    (classify sta log aA cA mA).2 = [] ↔
    (classify sta log aA cA mA).1 = JS_FINE := by
  rcases baseScan_cases log with h | h | h <;>
    cases sta <;> cases aA <;> cases cA <;> cases mA <;>
      simp [classify, escalate, h, JS_FINE, JS_TIMED_OUT,
        JS_ABNORMAL_EXIT, JS_DID_NOT_FINISH, JS_DECIDED_TO_EXIT,
        JS_MALLOC_ERROR, JS_NEW_ASSERT_OR_CRASH, didNotFinishIssue]

/-- C5: with status NORMAL and no detector firing, a log containing the
success marker and not the self-terminated marker classifies as
`JS_FINE` with no issues; one containing the self-terminated marker and
not the success marker classifies as `JS_DECIDED_TO_EXIT`; one
containing neither classifies as `JS_DID_NOT_FINISH`. -/
theorem marker_precedence (log : List String) :
    (goodMarker ∈ log → exitMarker ∉ log →
      classify Status.NORMAL log false false false = (JS_FINE, [])) ∧
    (exitMarker ∈ log → goodMarker ∉ log →
      classify Status.NORMAL log false false false =
        (JS_DECIDED_TO_EXIT, ["jsfunfuzz decided to exit"])) ∧
    (goodMarker ∉ log → exitMarker ∉ log →
      classify Status.NORMAL log false false false =
        (JS_DID_NOT_FINISH, [didNotFinishIssue])) := by
  refine ⟨fun hg he => ?_, fun he hg => ?_, fun hg he => ?_⟩ <;>
    rw [classify_no_fire]
  · exact foldl_scanStep_good_only log _ hg he
  · exact foldl_scanStep_exit_only log _ he hg
  · exact foldl_scanStep_nomarker log _ fun x hx =>
      ⟨fun h => hg (h ▸ hx), fun h => he (h ▸ hx)⟩

/-- C5 witness: the three marker-precedence cases at the one-line logs
`[goodMarker]`, `[exitMarker]` and the empty log. -/
theorem marker_precedence_witness :
    classify Status.NORMAL [goodMarker] false false false = (JS_FINE, []) ∧
    classify Status.NORMAL [exitMarker] false false false =
      (JS_DECIDED_TO_EXIT, ["jsfunfuzz decided to exit"]) ∧
    classify Status.NORMAL [] false false false =
      (JS_DID_NOT_FINISH, [didNotFinishIssue]) :=
  ⟨(marker_precedence [goodMarker]).1 (by decide) (by decide),
   (marker_precedence [exitMarker]).2.1 (by decide) (by decide),
   (marker_precedence []).2.2 (by decide) (by decide)⟩

/-- C6: with status TIMED_OUT, a log containing the success marker and
no detector firing still classifies at level at least `JS_TIMED_OUT`:
the status floor is applied with `max` after the log scan. -/
theorem status_floor_timed_out (log : List String)
    (hg : goodMarker ∈ log) :
    JS_TIMED_OUT ≤ (classify Status.TIMED_OUT log false false false).1 := by
  simp [classify, escalate, JS_TIMED_OUT]

/-- C6 witness: the status floor at the log `[goodMarker]`. -/
theorem status_floor_timed_out_witness :
    JS_TIMED_OUT ≤
      (classify Status.TIMED_OUT [goodMarker] false false false).1 :=
  status_floor_timed_out [goodMarker] (by decide)

/-- C7: the interestingness predicate is true exactly when the level
reached by running and classifying the command `args[3:]` is at least
the minimum interesting level parsed from `args[0]`. -/
theorem interesting_iff_level (run : List String → Int → RunInfo)
    (a0 a1 a2 : String) (rest : List String) :
    interesting run (a0 :: a1 :: a2 :: rest) = true ↔
      a0.toInt! ≤ (level run rest a1.toInt! : Int) := by
  simp [interesting]

/-- C10: the interestingness predicate ignores `args[2]` (the
knownPath): two argument lists agreeing on the minimum level, the
timeout and the command tail `args[3:]`, but differing at index 2,
produce the same answer. -/
theorem interesting_ignores_known_path (run : List String → Int → RunInfo)
    (a0 a1 x y : String) (rest : List String) :
    interesting run (a0 :: a1 :: x :: rest) =
      interesting run (a0 :: a1 :: y :: rest) := rfl

/-- C8: the shell-support probe maps exit code 0 to `true`, exit codes
1 through 3 to `false`, and any other exit code to a raised error. -/
theorem shellSupports_exit_codes (capture : List String → String × Int)
    (isMac isARMv7l : Bool) (shellPath : String) (args : List String)
    (r : Int)
    (hr : (testBinary capture isMac isARMv7l shellPath args false).2 = r) :
    (r = 0 →
      shellSupports capture isMac isARMv7l shellPath args = Except.ok true) ∧
    (1 ≤ r ∧ r ≤ 3 →
      shellSupports capture isMac isARMv7l shellPath args = Except.ok false) ∧
    (r ≠ 0 → ¬(1 ≤ r ∧ r ≤ 3) →
      shellSupports capture isMac isARMv7l shellPath args =
        Except.error ("Unexpected exit code in shellSupports " ++ toString r)) := by
  refine ⟨fun h0 => ?_, fun h13 => ?_, fun hne h13 => ?_⟩ <;>
    simp only [shellSupports, hr]
  · simp [h0]
  · have : ¬(r == 0) = true := by
      simp only [beq_iff_eq]
      omega
    rw [if_neg this, if_pos h13]
  · have : ¬(r == 0) = true := by
      simp only [beq_iff_eq]
      exact hne
    rw [if_neg this, if_neg h13]

/-- C8 witness: the three exit-code classes at concrete probe
oracles returning exit codes 0, 2 and 7. -/
theorem shellSupports_exit_codes_witness :
    shellSupports (fun _ => ("", 0)) false false "js" [] = Except.ok true ∧
    shellSupports (fun _ => ("", 2)) false false "js" [] = Except.ok false ∧
    shellSupports (fun _ => ("", 7)) false false "js" [] =
      Except.error ("Unexpected exit code in shellSupports " ++ toString (7 : Int)) :=
  ⟨(shellSupports_exit_codes (fun _ => ("", 0)) false false "js" [] 0 rfl).1 rfl,
   (shellSupports_exit_codes (fun _ => ("", 2)) false false "js" [] 2 rfl).2.1
     (by decide),
   (shellSupports_exit_codes (fun _ => ("", 7)) false false "js" [] 7 rfl).2.2
     (by decide) (by decide)⟩

/-- C9: on a non-Windows platform, when the file-type description (the
part of the `file` output after the first colon) mentions neither
a 32-bit indicator nor a 64-bit indicator and is not a universal
binary, the architecture query returns `Except.ok none`: no value, and
no raised error. -/
theorem archOfBinary_neither_indicator (capture : List String → String)
    (binary ft : String)
    (hsplit : splitColonTail (capture ["file", binary]) = some ft)
    (hu : pyIn "universal binary" ft = false)
    (h32 : pyIn "32-bit" ft = false)
    (hi : pyIn "i386" ft = false)
    (h64 : pyIn "64-bit" ft = false) :
    archOfBinary capture false binary = Except.ok none := by
  simp [archOfBinary, hsplit, hu, h32, hi, h64]

/-- C9 witness: a concrete `file` output with no bitness indicator. -/
theorem archOfBinary_neither_indicator_witness :
    archOfBinary (fun _ => "shell: ELF LSB executable") false "shell" =
      Except.ok none :=
  archOfBinary_neither_indicator (fun _ => "shell: ELF LSB executable")
    "shell" " ELF LSB executable" (by decide) (by decide) (by decide)
    (by decide) (by decide)
